import Mathlib

/-!
# Verification of the devtickticktick stats aggregation core

Shallow embedding of `server/app/models.py`.

Modelling conventions:
* Timestamps (`datetime`) are integer seconds on the UTC timeline (`Int`);
  `timedelta` values are integer second counts.  All timestamps occurring in
  the repository are whole seconds, so no sub-second component is modelled.
* Python's `timedelta.seconds` attribute returns the *sub-day* seconds
  component of the normalized timedelta (always in `[0, 86400)`, also for
  negative timedeltas).  That is `t % 86400` with Lean's Euclidean `%`.
* Python's `round` is round-half-to-even.  The two quantities that are
  rounded in the source, `round(x / 60)` and `round(n + x / 60)` with
  `n` an integer and `0 ≤ x < 86400` an integer, are exact in binary
  floating point at every tie (ties are exactly `k + 0.5`), and away from
  ties the distance to the nearest half-integer (≥ 1/60) dwarfs the float
  error, so both are faithfully modelled by exact rational
  round-half-to-even (`roundDiv60`, `roundAddDiv60` below).
* The database/ORM collaborator is modelled by passing the user's session
  list explicitly; the query filter and the `ORDER BY started_at ASC` of
  `get_stats_between` are executed on that list (`sessionInWindow`,
  `sortByStart`).  The relative order of sessions with equal `started_at`
  is unspecified by the database; the insertion sort below fixes one order.
* `zoneinfo.ZoneInfo` is modelled as a finite table from IANA identifiers
  to fixed UTC offsets in seconds; an identifier absent from the table
  raises `ZoneInfoNotFoundError`, exactly as `ZoneInfo(key)` does.
* Exceptions are modelled with `Except String`; mutation of
  `self.statistics` is modelled by returning the (possibly updated) cache
  next to the result.
-/

/-- A `CodingSession` row: timestamps are integer seconds (UTC). -/
structure CodingSession where
  started_at : Int
  last_heartbeat_at : Int
  language : String
  editor : String
deriving DecidableEq

/-- The stats dictionary produced by `get_default_stats_template` and
filled in by `get_stats_between`.  The two `defaultdict(int)` entries are
total functions defaulting to `0`. -/
structure Stats where
  languages : String → Int
  total : Int
  editors : String → Int
  idle_for : Int

/-- `User.get_default_stats_template`. -/
def get_default_stats_template : Stats :=
  { languages := fun _ => 0, total := 0, editors := fun _ => 0, idle_for := 0 }

/-- Python `timedelta.seconds`: the sub-day seconds component of the
normalized timedelta, `t % 86400 ∈ [0, 86400)` (also for negative `t`). -/
def tdSeconds (t : Int) : Int := t % 86400

/-- Python `round(x / 60)` for an integer number of seconds `x`:
round-half-to-even of the exact rational `x / 60`. -/
def roundDiv60 (x : Int) : Int :=
  if x % 60 < 30 then x / 60
  else if 30 < x % 60 then x / 60 + 1
  else if (x / 60) % 2 = 0 then x / 60 else x / 60 + 1

/-- Python `round(n + x / 60)` for integers `n` and `x`:
round-half-to-even, where only the fractional part of `x / 60` can tie. -/
def roundAddDiv60 (n x : Int) : Int :=
  if x % 60 < 30 then n + x / 60
  else if 30 < x % 60 then n + x / 60 + 1
  else if (n + x / 60) % 2 = 0 then n + x / 60 else n + x / 60 + 1

/-- One iteration of the `for session in sessions` loop of
`User.get_stats_between`, acting on the pair
(stats so far, `last_on_left`). -/
def stepSession (dt1 dt2 allowed_break : Int) (acc : Stats × Int)
    (s : CodingSession) : Stats × Int :=
  let stats := acc.1
  let last_on_left := acc.2
  let left_end := max s.started_at dt1
  let right_end := min s.last_heartbeat_at dt2
  -- add to idle time if idle for more than allowed break
  let idle_time := left_end - last_on_left
  let stats :=
    if allowed_break < idle_time then
      { stats with idle_for := stats.idle_for + roundDiv60 (tdSeconds idle_time) }
    else stats
  -- convert duration to minutes
  let duration := roundDiv60 (tdSeconds (right_end - left_end + 30))
  let stats :=
    { stats with
      languages := fun l =>
        if l = s.language then stats.languages l + duration else stats.languages l
      editors := fun e =>
        if e = s.editor then stats.editors e + duration else stats.editors e }
  -- in total, don't consider overlapping sessions
  let stats :=
    { stats with
      total := roundAddDiv60 stats.total
        (tdSeconds (max right_end last_on_left - max left_end last_on_left + 30)) }
  (stats, max right_end last_on_left)

/-- The filter of the session query in `get_stats_between`:
`last_heartbeat_at > dt1 AND started_at < dt2`. -/
def sessionInWindow (dt1 dt2 : Int) (s : CodingSession) : Bool :=
  decide (dt1 < s.last_heartbeat_at) && decide (s.started_at < dt2)

/-- Insertion of a session into a list sorted by `started_at`
(models the query's `ORDER BY started_at ASC`). -/
def insertByStart (s : CodingSession) :
    List CodingSession → List CodingSession
  | [] => [s]
  | t :: ts =>
    if s.started_at ≤ t.started_at then s :: t :: ts else t :: insertByStart s ts

/-- Sorting by `started_at` ascending (models `ORDER BY started_at ASC`). -/
def sortByStart : List CodingSession → List CodingSession
  | [] => []
  | s :: ss => insertByStart s (sortByStart ss)

/-- `User.get_stats_between(dt1, dt2)`.  `sessions` is the user's full
session list (the database collaborator); the query filter and ordering
are applied to it, then the loop folds `stepSession` starting from the
default stats template with `last_on_left = dt1`. -/
def get_stats_between (sessions : List CodingSession)
    (dt1 dt2 allowed_break : Int) : Stats :=
  ((sortByStart (sessions.filter (sessionInWindow dt1 dt2))).foldl
    (stepSession dt1 dt2 allowed_break) (get_default_stats_template, dt1)).1

/-- The four possible results of `User.current_activity_message`, with the
data interpolated into the English message strings as payload. -/
inductive ActivityMessage where
  | noData
  | coding (session_length : Int) (language : String)
  | idle (session_length : Int) (language : String)
  | away (since_last_hb : Int)
deriving DecidableEq

/-- A Python `datetime` value: an instant in integer seconds together
with its tzinfo-awareness.  Session rows load from `db.Column(db.DateTime)`
— `TIMESTAMP WITHOUT TIME ZONE` — as offset-naive datetimes (the source
relies on this: `get_stats_between` strips `tzinfo` from its aware UTC
bounds before comparing them with the columns), while
`datetime.now(timezone.utc)` is offset-aware. -/
structure PyDatetime where
  seconds : Int
  aware : Bool
deriving DecidableEq

/-- `datetime.now(timezone.utc)`: an offset-aware instant. -/
def datetime_now_utc (t : Int) : PyDatetime := ⟨t, true⟩

/-- A session timestamp as loaded from its offset-naive `db.DateTime`
column. -/
def naiveColumn (t : Int) : PyDatetime := ⟨t, false⟩

/-- Python datetime subtraction: defined between two naive or two aware
operands; mixing an offset-naive and an offset-aware datetime raises
`TypeError`. -/
def pySubDatetime (a b : PyDatetime) : Except String Int :=
  if a.aware = b.aware then .ok (a.seconds - b.seconds)
  else .error "TypeError: cannot subtract offset-naive and offset-aware datetimes"

/-- `User.current_activity_message`.  `now` models
`datetime.now(timezone.utc)` (offset-aware); `last_session` models the
`User.last_session` collaborator query (most recent session by
`last_heartbeat_at`, or `none` if the user has no session), whose
timestamps are offset-naive column values.  The property first computes
`since_last_hb = now - last_heartbeat_at`, an aware-minus-naive
subtraction that raises `TypeError`; the classification branches below
it are reproduced from the source but are unreachable whenever a session
exists.  (`session.length` itself subtracts two naive columns and is
fine.) -/
def current_activity_message (now : PyDatetime)
    (last_session : Option CodingSession) : Except String ActivityMessage :=
  match last_session with
  | none => .ok .noData
  | some s =>
    match pySubDatetime now (naiveColumn s.last_heartbeat_at) with
    | .error e => .error e
    | .ok since_last_hb =>
      if since_last_hb < 60 then
        .ok (.coding (s.last_heartbeat_at - s.started_at) s.language)
      else if since_last_hb < 300 then
        .ok (.idle (s.last_heartbeat_at - s.started_at) s.language)
      else
        .ok (.away since_last_hb)

/-- A calendar date (`datetime.date`). -/
structure Date where
  year : Nat
  month : Nat
  day : Nat
deriving DecidableEq

/-- Zero-padded two-digit field, as strftime's `%d` / `%m`. -/
def pad2 (n : Nat) : String := if n < 10 then "0" ++ toString n else toString n

/-- Zero-padded (≥ 4 digits) year, as strftime's `%Y` in CPython. -/
def pad4 (n : Nat) : String :=
  if n < 10 then "000" ++ toString n
  else if n < 100 then "00" ++ toString n
  else if n < 1000 then "0" ++ toString n
  else toString n

/-- `stats_date.strftime("%d-%m-%YYYY")` as used by `get_stats_by_date`:
strftime expands `%d`, `%m` and `%Y` and leaves the trailing `YYY` as a
literal, producing e.g. `12-10-2026YYY`. -/
def strftimeCacheKey (d : Date) : String :=
  pad2 d.day ++ "-" ++ pad2 d.month ++ "-" ++ pad4 d.year ++ "YYY"

/-- `current_date.strftime("%d-%m-%Y")` as used by `daywise_stats`. -/
def strftimeDMY (d : Date) : String :=
  pad2 d.day ++ "-" ++ pad2 d.month ++ "-" ++ pad4 d.year

/-- Days between a civil date and 1970-01-01 in the proleptic Gregorian
calendar (standard days-from-civil algorithm), used to place the local
midnight of a date on the integer-seconds timeline. -/
def days_from_civil (d : Date) : Int :=
  let y : Int := if d.month ≤ 2 then (d.year : Int) - 1 else (d.year : Int)
  let m : Int := (d.month : Int)
  let era : Int := (if 0 ≤ y then y else y - 399) / 400
  let yoe : Int := y - era * 400
  let doy : Int := (153 * (m + (if 2 < m then -3 else 9)) + 2) / 5 + (d.day : Int) - 1
  let doe : Int := yoe * 365 + yoe / 4 - yoe / 100 + doy
  era * 146097 + doe - 719468

/-- Python `date` comparison `a <= b` (year, then month, then day). -/
def dateLe (a b : Date) : Bool :=
  decide (a.year < b.year ∨ (a.year = b.year ∧
    (a.month < b.month ∨ (a.month = b.month ∧ a.day ≤ b.day))))

/-- Gregorian leap year test. -/
def isLeapYear (y : Nat) : Bool :=
  y % 4 = 0 && (y % 100 != 0 || y % 400 = 0)

/-- Number of days in a month. -/
def daysInMonth (y m : Nat) : Nat :=
  if m = 2 then (if isLeapYear y then 29 else 28)
  else if m = 4 || m = 6 || m = 9 || m = 11 then 30
  else 31

/-- `current_date + timedelta(days=1)` on calendar dates. -/
def nextDay (d : Date) : Date :=
  if d.day < daysInMonth d.year d.month then ⟨d.year, d.month, d.day + 1⟩
  else if d.month < 12 then ⟨d.year, d.month + 1, 1⟩
  else ⟨d.year + 1, 1, 1⟩

/-- `self.timezone or "UTC"`: Python `or` replaces both `None` and the
empty string (falsy) by `"UTC"`. -/
def tzKeyOrUTC (timezone : Option String) : String :=
  match timezone with
  | none => "UTC"
  | some s => if s = "" then "UTC" else s

/-- The `zoneinfo` collaborator: a table from IANA identifiers to fixed
UTC offsets in seconds (east positive).  `ZoneInfo(key)` succeeds iff the
key is in the table. -/
abbrev ZoneDB := List (String × Int)

/-- The user's `statistics` JSONB column: the per-day cache mapping
formatted date strings to stats snapshots. -/
abbrev StatsCache := List (String × Stats)

/-- `User.get_stats_by_date(stats_date, use_cache)`.  Returns the stats
together with the user's `statistics` cache as it stands after the call
(the source never writes to it, so it is returned as received).  An
unknown timezone key makes `ZoneInfo` raise `ZoneInfoNotFoundError`.
With a fixed-offset zone, `datetime(y, m, d, 0, 0, 0, tzinfo=tz)` is the
instant `86400 * days_from_civil(d) - offset` and
`datetime(y, m, d, 23, 59, 59, tzinfo=tz)` is `86399` seconds later. -/
def get_stats_by_date (zones : ZoneDB) (sessions : List CodingSession)
    (allowed_break : Int) (timezone : Option String) (statistics : StatsCache)
    (stats_date : Date) (use_cache : Bool) :
    Except String (Stats × StatsCache) :=
  let date_str := strftimeCacheKey stats_date
  match (if use_cache then statistics.lookup date_str else none) with
  | some cached => .ok (cached, statistics)
  | none =>
    match zones.lookup (tzKeyOrUTC timezone) with
    | none => .error "ZoneInfoNotFoundError"
    | some offset =>
      let start_time_utc := 86400 * days_from_civil stats_date - offset
      let end_time_utc := 86400 * days_from_civil stats_date + 86399 - offset
      .ok (get_stats_between sessions start_time_utc end_time_utc allowed_break,
           statistics)

/-- The `while current_date <= end` loop of `User.daywise_stats`; `fuel`
bounds the number of iterations and is chosen large enough in
`daywise_stats` that it never runs out for calendar dates. -/
def daywiseLoop (zones : ZoneDB) (sessions : List CodingSession)
    (allowed_break : Int) (timezone : Option String) :
    Nat → Date → Date → StatsCache → Except String (List (String × Stats))
  | 0, _, _, _ => .ok []
  | fuel + 1, current_date, endDate, statistics =>
    if dateLe current_date endDate then
      match get_stats_by_date zones sessions allowed_break timezone statistics
          current_date true with
      | .error e => .error e
      | .ok (st, statistics') =>
        match daywiseLoop zones sessions allowed_break timezone fuel
            (nextDay current_date) endDate statistics' with
        | .error e => .error e
        | .ok rest => .ok ((strftimeDMY current_date, st) :: rest)
    else .ok []

/-- `User.daywise_stats(start, end)`.  The `assert start <= end` failure
is the `AssertionError` below; otherwise the per-day loop runs from
`start` to `endDate` inclusive, keyed by `%d-%m-%Y` strings. -/
def daywise_stats (zones : ZoneDB) (sessions : List CodingSession)
    (allowed_break : Int) (timezone : Option String) (statistics : StatsCache)
    (start : Date) (endOpt : Option Date) :
    Except String (List (String × Stats)) :=
  let endDate := endOpt.getD start
  if dateLe start endDate then
    daywiseLoop zones sessions allowed_break timezone
      ((days_from_civil endDate - days_from_civil start).toNat + 1)
      start endDate statistics
  else
    .error "AssertionError: End date must be greater than or equal to start date"

/-- The `statistics` cache a `get_stats_by_date` call leaves behind
(`none` when the call raises). -/
def resultCache : Except String (Stats × StatsCache) → Option StatsCache
  | .ok (_, c) => some c
  | .error _ => none

/-- All numeric content of a stats record is non-negative. -/
def NonnegStats (st : Stats) : Prop :=
  0 ≤ st.idle_for ∧ 0 ≤ st.total ∧ (∀ l, 0 ≤ st.languages l) ∧
    ∀ e, 0 ≤ st.editors e

/-! ## Basic lemmas about the embedded arithmetic -/

lemma tdSeconds_nonneg (t : Int) : 0 ≤ tdSeconds t := by
  unfold tdSeconds; omega

lemma tdSeconds_lt (t : Int) : tdSeconds t < 86400 := by
  unfold tdSeconds; omega

lemma tdSeconds_of_bounds (t : Int) (h0 : 0 ≤ t) (h1 : t < 86400) :
    tdSeconds t = t := by
  unfold tdSeconds; omega

lemma tdSeconds_of_neg (t : Int) (h0 : -86400 ≤ t) (h1 : t < 0) :
    tdSeconds t = t + 86400 := by
  unfold tdSeconds; omega

lemma roundDiv60_nonneg (x : Int) (hx : 0 ≤ x) : 0 ≤ roundDiv60 x := by
  unfold roundDiv60; split_ifs <;> omega

/-- `roundDiv60` really rounds to the nearest minute: the result is never
more than half a minute away from the exact value. -/
lemma roundDiv60_near (x : Int) : (60 * roundDiv60 x - x).natAbs ≤ 30 := by
  unfold roundDiv60; split_ifs <;> omega

lemma roundAddDiv60_ge (n x : Int) (hx : 0 ≤ x) : n ≤ roundAddDiv60 n x := by
  unfold roundAddDiv60; split_ifs <;> omega

lemma roundAddDiv60_thirty (n : Int) :
    roundAddDiv60 n 30 = n + (if n % 2 = 0 then 0 else 1) := by
  unfold roundAddDiv60; split_ifs <;> omega

/-! ## Field-level characterization of one loop iteration -/

/-- What one iteration of the `get_stats_between` loop does to every field
of the accumulator. -/
lemma stepSession_spec (dt1 dt2 ab : Int) (st : Stats) (lol : Int)
    (s : CodingSession) :
    (stepSession dt1 dt2 ab (st, lol) s).1.idle_for
        = st.idle_for + (if ab < max s.started_at dt1 - lol
            then roundDiv60 (tdSeconds (max s.started_at dt1 - lol)) else 0)
    ∧ (stepSession dt1 dt2 ab (st, lol) s).1.total
        = roundAddDiv60 st.total
            (tdSeconds (max (min s.last_heartbeat_at dt2) lol
              - max (max s.started_at dt1) lol + 30))
    ∧ (∀ l, (stepSession dt1 dt2 ab (st, lol) s).1.languages l
        = st.languages l + (if l = s.language
            then roundDiv60 (tdSeconds (min s.last_heartbeat_at dt2
              - max s.started_at dt1 + 30)) else 0))
    ∧ (∀ e, (stepSession dt1 dt2 ab (st, lol) s).1.editors e
        = st.editors e + (if e = s.editor
            then roundDiv60 (tdSeconds (min s.last_heartbeat_at dt2
              - max s.started_at dt1 + 30)) else 0))
    ∧ (stepSession dt1 dt2 ab (st, lol) s).2
        = max (min s.last_heartbeat_at dt2) lol := by
  refine ⟨?_, ?_, fun l => ?_, fun e => ?_, ?_⟩
  · by_cases hc : ab < max s.started_at dt1 - lol <;> simp [stepSession, hc]
  · by_cases hc : ab < max s.started_at dt1 - lol <;> simp [stepSession, hc]
  · by_cases hc : ab < max s.started_at dt1 - lol <;>
      by_cases hl : l = s.language <;> simp [stepSession, hc, hl]
  · by_cases hc : ab < max s.started_at dt1 - lol <;>
      by_cases he : e = s.editor <;> simp [stepSession, hc, he]
  · by_cases hc : ab < max s.started_at dt1 - lol <;> simp [stepSession, hc]

/-! ## Non-negativity invariant (Claim C9) -/

lemma nonneg_default : NonnegStats get_default_stats_template := by
  refine ⟨le_refl 0, le_refl 0, fun _ => le_refl 0, fun _ => le_refl 0⟩

lemma stepSession_nonneg (dt1 dt2 ab : Int) (acc : Stats × Int)
    (s : CodingSession) (h : NonnegStats acc.1) :
    NonnegStats (stepSession dt1 dt2 ab acc s).1 := by
  obtain ⟨h1, h2, h3, h4⟩ := h
  obtain ⟨e1, e2, e3, e4, e5⟩ := stepSession_spec dt1 dt2 ab acc.1 acc.2 s
  refine ⟨?_, ?_, fun l => ?_, fun e => ?_⟩
  · rw [e1]
    have := roundDiv60_nonneg (tdSeconds (max s.started_at dt1 - acc.2))
      (tdSeconds_nonneg _)
    split_ifs <;> omega
  · rw [e2]
    have := roundAddDiv60_ge acc.1.total
      (tdSeconds (max (min s.last_heartbeat_at dt2) acc.2
        - max (max s.started_at dt1) acc.2 + 30)) (tdSeconds_nonneg _)
    omega
  · rw [e3 l]
    have := roundDiv60_nonneg (tdSeconds (min s.last_heartbeat_at dt2
      - max s.started_at dt1 + 30)) (tdSeconds_nonneg _)
    have := h3 l
    split_ifs <;> omega
  · rw [e4 e]
    have := roundDiv60_nonneg (tdSeconds (min s.last_heartbeat_at dt2
      - max s.started_at dt1 + 30)) (tdSeconds_nonneg _)
    have := h4 e
    split_ifs <;> omega

lemma foldl_stepSession_nonneg (dt1 dt2 ab : Int) :
    ∀ (l : List CodingSession) (acc : Stats × Int), NonnegStats acc.1 →
      NonnegStats ((l.foldl (stepSession dt1 dt2 ab) acc).1) := by
  intro l
  induction l with
  | nil => intro acc h; simpa using h
  | cons s ss ih =>
    intro acc h
    rw [List.foldl_cons]
    exact ih _ (stepSession_nonneg dt1 dt2 ab acc s h)

/-- Claim C9: for every window, every session list and every
`acceptableBreak`, the stats returned by `get_stats_between` satisfy
`idle_for ≥ 0`, `total ≥ 0`, and every language and editor bucket `≥ 0`.
(Proved for arbitrary inputs, which subsumes the claim's precondition
on the session list.) -/
theorem C9_nonneg (sessions : List CodingSession) (dt1 dt2 allowed_break : Int) :
    0 ≤ (get_stats_between sessions dt1 dt2 allowed_break).idle_for
    ∧ 0 ≤ (get_stats_between sessions dt1 dt2 allowed_break).total
    ∧ (∀ l, 0 ≤ (get_stats_between sessions dt1 dt2 allowed_break).languages l)
    ∧ ∀ e, 0 ≤ (get_stats_between sessions dt1 dt2 allowed_break).editors e :=
  foldl_stepSession_nonneg dt1 dt2 allowed_break
    (sortByStart (sessions.filter (sessionInWindow dt1 dt2)))
    (get_default_stats_template, dt1) nonneg_default

/-! ## Evaluating the aggregator on a single in-window session -/

lemma get_stats_between_singleton (dt1 dt2 ab : Int) (s : CodingSession)
    (hf1 : dt1 < s.last_heartbeat_at) (hf2 : s.started_at < dt2) :
    get_stats_between [s] dt1 dt2 ab
      = (stepSession dt1 dt2 ab (get_default_stats_template, dt1) s).1 := by
  unfold get_stats_between
  simp [List.filter_cons, sessionInWindow, hf1, hf2, sortByStart, insertByStart]

/-! ## Claim C1: overlap deduplication of `total` -/

/-- Claim C1, counterexample.  Session A covers `[0s, 130s]` and pushes the
running total to 3 (odd); session B `[30s, 60s]` is fully contained in the
interval already covered, yet the total moves from 3 to 4: the half-minute
bias of the incremental total contribution (`0s + 30s = 0.5 min`) is
rounded half-to-even against the running total, so a fully contained
session adds 1 whenever the running total is odd — not always 0 as the
claim states. -/
theorem C1_counterexample :
    (get_stats_between [⟨0, 130, "X", "e"⟩, ⟨30, 60, "Y", "e"⟩] 0 1000 300).total = 4
    ∧ (get_stats_between [⟨0, 130, "X", "e"⟩] 0 1000 300).total = 3
    ∧ ¬ ((get_stats_between [⟨0, 130, "X", "e"⟩, ⟨30, 60, "Y", "e"⟩] 0 1000 300).total
          = (get_stats_between [⟨0, 130, "X", "e"⟩] 0 1000 300).total) := by
  refine ⟨by decide, by decide, by decide⟩

/-- Claim C1, amended.  A session whose clipped interval is fully contained
in the interval already covered by previously scanned sessions adds its
full clipped rounded duration to its language and editor buckets, leaves
`idle_for` and the covered right edge unchanged, and adds to `total` not
always 0 but the round-half-to-even resolution of the residual half-minute
bias: 0 when the running total is even and 1 when it is odd.  The claim's
concrete two-session instance (A 10:00–10:30 language X, B 10:10–10:20
language Y, in a window containing both) does satisfy
`languages[X] = 30`, `languages[Y] = 10`, `total = 30` because the running
total is even there. -/
theorem C1_amended (dt1 dt2 allowed_break : Int) (st : Stats)
    (last_on_left : Int) (s : CodingSession)
    (hcontain : min s.last_heartbeat_at dt2 ≤ last_on_left)
    (hwf : max s.started_at dt1 ≤ min s.last_heartbeat_at dt2)
    (hab : 0 ≤ allowed_break) :
    ((stepSession dt1 dt2 allowed_break (st, last_on_left) s).1.total
        = st.total + (if st.total % 2 = 0 then 0 else 1)
      ∧ (stepSession dt1 dt2 allowed_break (st, last_on_left) s).1.languages s.language
        = st.languages s.language + roundDiv60 (tdSeconds
            (min s.last_heartbeat_at dt2 - max s.started_at dt1 + 30))
      ∧ (stepSession dt1 dt2 allowed_break (st, last_on_left) s).1.idle_for
        = st.idle_for
      ∧ (stepSession dt1 dt2 allowed_break (st, last_on_left) s).2 = last_on_left)
    ∧ ((get_stats_between [⟨36000, 37800, "X", "e"⟩, ⟨36600, 37200, "Y", "e"⟩]
          36000 39600 300).languages "X" = 30
      ∧ (get_stats_between [⟨36000, 37800, "X", "e"⟩, ⟨36600, 37200, "Y", "e"⟩]
          36000 39600 300).languages "Y" = 10
      ∧ (get_stats_between [⟨36000, 37800, "X", "e"⟩, ⟨36600, 37200, "Y", "e"⟩]
          36000 39600 300).total = 30) := by
  obtain ⟨e1, e2, e3, e4, e5⟩ :=
    stepSession_spec dt1 dt2 allowed_break st last_on_left s
  have hle : max s.started_at dt1 ≤ last_on_left := le_trans hwf hcontain
  have hmaxr : max (min s.last_heartbeat_at dt2) last_on_left = last_on_left :=
    max_eq_right hcontain
  have hmaxl : max (max s.started_at dt1) last_on_left = last_on_left :=
    max_eq_right hle
  refine ⟨⟨?_, ?_, ?_, ?_⟩, by decide, by decide, by decide⟩
  · rw [e2, hmaxr, hmaxl]
    have h30 : last_on_left - last_on_left + 30 = (30 : Int) := by ring
    rw [h30, tdSeconds_of_bounds 30 (by omega) (by omega), roundAddDiv60_thirty]
  · rw [e3 s.language, if_pos rfl]
  · rw [e1, if_neg (by omega)]
    omega
  · rw [e5, hmaxr]

/-- Claim C1, witness: the amended step-level statement applied to a
running total of 3 (odd) and the fully contained session `[30s, 60s]`. -/
theorem C1_witness :
    ((stepSession 0 1000 300
        ({ languages := fun _ => 0, total := 3, editors := fun _ => 0,
           idle_for := 0 }, 130) ⟨30, 60, "Y", "e"⟩).1.total
      = 3 + (if (3 : Int) % 2 = 0 then 0 else 1)
    ∧ (stepSession 0 1000 300
        ({ languages := fun _ => 0, total := 3, editors := fun _ => 0,
           idle_for := 0 }, 130) ⟨30, 60, "Y", "e"⟩).1.languages "Y"
      = 0 + roundDiv60 (tdSeconds (min 60 1000 - max 30 0 + 30))
    ∧ (stepSession 0 1000 300
        ({ languages := fun _ => 0, total := 3, editors := fun _ => 0,
           idle_for := 0 }, 130) ⟨30, 60, "Y", "e"⟩).1.idle_for = 0
    ∧ (stepSession 0 1000 300
        ({ languages := fun _ => 0, total := 3, editors := fun _ => 0,
           idle_for := 0 }, 130) ⟨30, 60, "Y", "e"⟩).2 = 130)
    ∧ ((get_stats_between [⟨36000, 37800, "X", "e"⟩, ⟨36600, 37200, "Y", "e"⟩]
          36000 39600 300).languages "X" = 30
      ∧ (get_stats_between [⟨36000, 37800, "X", "e"⟩, ⟨36600, 37200, "Y", "e"⟩]
          36000 39600 300).languages "Y" = 10
      ∧ (get_stats_between [⟨36000, 37800, "X", "e"⟩, ⟨36600, 37200, "Y", "e"⟩]
          36000 39600 300).total = 30) :=
  C1_amended 0 1000 300
    { languages := fun _ => 0, total := 3, editors := fun _ => 0, idle_for := 0 }
    130 ⟨30, 60, "Y", "e"⟩ (by decide) (by decide) (by decide)

/-! ## Claim C2: duration rounding -/

/-- Claim C2, counterexample.  A session whose clipped length is exactly
89 seconds contributes `round((89 + 30) / 60) = round(1.9833…) = 2`
minutes to its language bucket, not 1 minute as the claim states. -/
theorem C2_counterexample :
    (get_stats_between [⟨0, 89, "py", "vim"⟩] 0 1000 300).languages "py" = 2
    ∧ ¬ ((get_stats_between [⟨0, 89, "py", "vim"⟩] 0 1000 300).languages "py" = 1) := by
  refine ⟨by decide, by decide⟩

/-- Claim C2, amended.  For a session whose clipped interval is
`[a, a + L]` (clipping inactive, `0 ≤ L`, `L + 30` below one day so the
`timedelta.seconds` component is the value itself), the minutes added to
its language and editor buckets equal `roundDiv60 (L + 30)`, the
round-half-to-even of `(L + 30) / 60` — and this result is never more
than half a minute from the exact clipped duration plus the half-minute
bias.  A clipped length of exactly 90 seconds contributes 2 minutes, and
one of exactly 89 seconds contributes 2 minutes as well (not 1: the
formula rounds 1.9833… up to the nearest minute). -/
theorem C2_amended (dt1 dt2 allowed_break a L : Int) (lang ed : String)
    (h1 : dt1 ≤ a) (h2 : a + L ≤ dt2) (hL : 0 ≤ L) (hmod : L + 30 < 86400)
    (hf1 : dt1 < a + L) (hf2 : a < dt2) :
    ((get_stats_between [⟨a, a + L, lang, ed⟩] dt1 dt2 allowed_break).languages lang
        = roundDiv60 (L + 30)
      ∧ (get_stats_between [⟨a, a + L, lang, ed⟩] dt1 dt2 allowed_break).editors ed
        = roundDiv60 (L + 30)
      ∧ (60 * roundDiv60 (L + 30) - (L + 30)).natAbs ≤ 30)
    ∧ (get_stats_between [⟨0, 90, "py", "vim"⟩] 0 1000 300).languages "py" = 2
    ∧ (get_stats_between [⟨0, 89, "py", "vim"⟩] 0 1000 300).languages "py" = 2 := by
  obtain ⟨e1, e2, e3, e4, e5⟩ := stepSession_spec dt1 dt2 allowed_break
    get_default_stats_template dt1 ⟨a, a + L, lang, ed⟩
  have hmin : min (a + L) dt2 = a + L := min_eq_left h2
  have hmax : max a dt1 = a := max_eq_left h1
  have hLen : a + L - a + 30 = L + 30 := by ring
  have hsingle := get_stats_between_singleton dt1 dt2 allowed_break
    ⟨a, a + L, lang, ed⟩ hf1 hf2
  refine ⟨⟨?_, ?_, roundDiv60_near (L + 30)⟩, by decide, by decide⟩
  · rw [hsingle, e3 lang, if_pos rfl]
    show 0 + roundDiv60 (tdSeconds (min (a + L) dt2 - max a dt1 + 30)) = _
    rw [hmin, hmax, hLen, tdSeconds_of_bounds (L + 30) (by omega) hmod, zero_add]
  · rw [hsingle, e4 ed, if_pos rfl]
    show 0 + roundDiv60 (tdSeconds (min (a + L) dt2 - max a dt1 + 30)) = _
    rw [hmin, hmax, hLen, tdSeconds_of_bounds (L + 30) (by omega) hmod, zero_add]

/-- Claim C2, witness: the amended statement applied to the 89-second
session `[0s, 89s]` inside the window `[0s, 1000s]`. -/
theorem C2_witness :
    ((get_stats_between [⟨0, 0 + 89, "py", "vim"⟩] 0 1000 300).languages "py"
        = roundDiv60 (89 + 30)
      ∧ (get_stats_between [⟨0, 0 + 89, "py", "vim"⟩] 0 1000 300).editors "vim"
        = roundDiv60 (89 + 30)
      ∧ (60 * roundDiv60 (89 + 30) - (89 + 30)).natAbs ≤ 30)
    ∧ (get_stats_between [⟨0, 90, "py", "vim"⟩] 0 1000 300).languages "py" = 2
    ∧ (get_stats_between [⟨0, 89, "py", "vim"⟩] 0 1000 300).languages "py" = 2 :=
  C2_amended 0 1000 300 0 89 "py" "vim" (by decide) (by decide) (by decide)
    (by decide) (by decide) (by decide)

/-! ## Claim C3: idle accounting -/

/-- Claim C3, counterexample.  With sessions `[0s, 60s]` and
`[90060s, 90120s]` (a 25-hour gap) and `acceptableBreak = 300s`, the code
adds `round(idle_time.seconds / 60) = round(3600 / 60) = 60` minutes to
`idle_for` — the `timedelta.seconds` attribute keeps only the sub-day
component of the gap — whereas the claim's `round(gap in minutes)` would
be `round(90000 / 60) = 1500`. -/
theorem C3_counterexample :
    (get_stats_between [⟨0, 60, "py", "vim"⟩, ⟨90060, 90120, "py", "vim"⟩]
        0 200000 300).idle_for = 60
    ∧ ¬ ((get_stats_between [⟨0, 60, "py", "vim"⟩, ⟨90060, 90120, "py", "vim"⟩]
        0 200000 300).idle_for = 1500) := by
  refine ⟨by decide, by decide⟩

/-- Claim C3, amended.  At each step of the scan, with
`gap = clipped left edge − right edge covered so far`: if
`gap > acceptableBreak` then `roundDiv60 (tdSeconds gap)` — the rounded
minute value of the gap's sub-day seconds component, i.e. the gap taken
modulo 24 hours, not the full gap — is added to `idle_for`, and if
`gap ≤ acceptableBreak` nothing is added (the threshold comparison is
strict).  Stated here on a single-session window, where the gap runs from
the window start to the session's clipped left edge; the concrete
conjuncts check the strict 5-minute boundary (two sessions 10:00–10:10
and 10:15–10:20 with a 300 s break yield no idle time) and the modulo
behaviour on a 25-hour gap. -/
theorem C3_amended (dt1 dt2 allowed_break : Int) (s : CodingSession)
    (h1 : dt1 ≤ s.started_at) (hf1 : dt1 < s.last_heartbeat_at)
    (hf2 : s.started_at < dt2) :
    ((allowed_break < s.started_at - dt1 →
        (get_stats_between [s] dt1 dt2 allowed_break).idle_for
          = roundDiv60 (tdSeconds (s.started_at - dt1)))
      ∧ (s.started_at - dt1 ≤ allowed_break →
        (get_stats_between [s] dt1 dt2 allowed_break).idle_for = 0))
    ∧ (get_stats_between [⟨36000, 36600, "py", "vim"⟩, ⟨36900, 37200, "py", "vim"⟩]
        36000 39600 300).idle_for = 0
    ∧ (get_stats_between [⟨0, 60, "py", "vim"⟩, ⟨90060, 90120, "py", "vim"⟩]
        0 200000 300).idle_for = 60 := by
  obtain ⟨e1, e2, e3, e4, e5⟩ := stepSession_spec dt1 dt2 allowed_break
    get_default_stats_template dt1 s
  have hmax : max s.started_at dt1 = s.started_at := max_eq_left h1
  have hsingle := get_stats_between_singleton dt1 dt2 allowed_break s hf1 hf2
  refine ⟨⟨fun hgap => ?_, fun hle => ?_⟩, by decide, by decide⟩
  · rw [hsingle, e1, hmax, if_pos hgap]
    show (0 : Int) + _ = _
    rw [zero_add]
  · rw [hsingle, e1, hmax, if_neg (by omega)]
    decide

/-- Claim C3, witness: the amended statement applied to a session starting
400 s after the window start (gap above the 300 s break: 7 idle minutes)
and to one starting 100 s after it (gap below the break: no idle). -/
theorem C3_witness :
    ((get_stats_between [⟨400, 800, "py", "vim"⟩] 0 10000 300).idle_for
        = roundDiv60 (tdSeconds (400 - 0))
      ∧ (get_stats_between [⟨100, 800, "py", "vim"⟩] 0 10000 300).idle_for = 0)
    ∧ (get_stats_between [⟨36000, 36600, "py", "vim"⟩, ⟨36900, 37200, "py", "vim"⟩]
        36000 39600 300).idle_for = 0 :=
  ⟨⟨(C3_amended 0 10000 300 ⟨400, 800, "py", "vim"⟩ (by decide) (by decide)
      (by decide)).1.1 (by decide),
    (C3_amended 0 10000 300 ⟨100, 800, "py", "vim"⟩ (by decide) (by decide)
      (by decide)).1.2 (by decide)⟩,
   (C3_amended 0 10000 300 ⟨400, 800, "py", "vim"⟩ (by decide) (by decide)
      (by decide)).2.1⟩

/-! ## Claim C4: idle time before the first session -/

/-- Claim C4, counterexample.  A single session whose clipped left edge is
600 s after the window start, with `acceptableBreak = 300 s`, produces
`idle_for = 10`: the scan initializes the covered right edge to the window
start, so the gap before the first session does count as idle time,
contrary to the claim. -/
theorem C4_counterexample :
    (get_stats_between [⟨36600, 37200, "py", "vim"⟩] 36000 100000 300).idle_for = 10
    ∧ ¬ ((get_stats_between [⟨36600, 37200, "py", "vim"⟩]
        36000 100000 300).idle_for = 0) := by
  refine ⟨by decide, by decide⟩

/-- Claim C4, amended.  With zero sessions the summary is all zeros (in
particular `idle_for = 0`), but for a non-empty session list the gap
between the window start and the first session's clipped left edge DOES
contribute to `idle_for` whenever it exceeds `acceptableBreak` (the loop
starts with `last_on_left = dt1`); concretely, a first session starting
600 s after the window start with a 300 s break yields 10 idle minutes. -/
theorem C4_amended (dt1 dt2 allowed_break : Int) :
    ((get_stats_between [] dt1 dt2 allowed_break).idle_for = 0
      ∧ (get_stats_between [] dt1 dt2 allowed_break).total = 0
      ∧ (∀ l, (get_stats_between [] dt1 dt2 allowed_break).languages l = 0)
      ∧ ∀ e, (get_stats_between [] dt1 dt2 allowed_break).editors e = 0)
    ∧ (get_stats_between [⟨600, 1200, "py", "vim"⟩] 0 10000 300).idle_for = 10 := by
  exact ⟨⟨rfl, rfl, fun _ => rfl, fun _ => rfl⟩, by decide⟩

/-! ## Claim C10: malformed sessions (last_heartbeat_at before started_at) -/

/-- Claim C10: a session whose `last_heartbeat_at` precedes its
`started_at` by more than 30 seconds after clipping is processed without
error and without clamping: the negative interval plus the half-minute
bias is reduced to its sub-day seconds component
(`timedelta.seconds`, i.e. taken modulo 24 hours, here
`x + 86400` for `-86400 ≤ x < 0`), and its rounded minute value is added
to the session's language and editor buckets.  Concretely, a session
ending 600 s before it starts contributes
`roundDiv60 (-570 + 86400) = roundDiv60 85830 = round(1430.5) = 1430`
minutes (round-half-to-even; 1430 is even) — not zero.  In the embedding
`get_stats_between` is a total function, reflecting that the source
raises no exception on such input. -/
theorem C10_malformed (dt1 dt2 allowed_break : Int) (s : CodingSession)
    (h1 : dt1 ≤ s.started_at) (h2 : s.last_heartbeat_at ≤ dt2)
    (hf1 : dt1 < s.last_heartbeat_at) (hf2 : s.started_at < dt2)
    (hneg : s.last_heartbeat_at - s.started_at + 30 < 0)
    (hbound : -86400 ≤ s.last_heartbeat_at - s.started_at + 30) :
    ((get_stats_between [s] dt1 dt2 allowed_break).languages s.language
        = roundDiv60 (s.last_heartbeat_at - s.started_at + 30 + 86400)
      ∧ (get_stats_between [s] dt1 dt2 allowed_break).editors s.editor
        = roundDiv60 (s.last_heartbeat_at - s.started_at + 30 + 86400))
    ∧ (get_stats_between [⟨1000, 400, "py", "vim"⟩] 0 100000 300).languages "py"
        = 1430
    ∧ roundDiv60 85830 = 1430
    ∧ ¬ ((get_stats_between [⟨1000, 400, "py", "vim"⟩] 0 100000 300).languages "py"
        = 0) := by
  obtain ⟨e1, e2, e3, e4, e5⟩ := stepSession_spec dt1 dt2 allowed_break
    get_default_stats_template dt1 s
  have hmin : min s.last_heartbeat_at dt2 = s.last_heartbeat_at := min_eq_left h2
  have hmax : max s.started_at dt1 = s.started_at := max_eq_left h1
  have hsingle := get_stats_between_singleton dt1 dt2 allowed_break s hf1 hf2
  have hmod : tdSeconds (s.last_heartbeat_at - s.started_at + 30)
      = s.last_heartbeat_at - s.started_at + 30 + 86400 :=
    tdSeconds_of_neg _ hbound hneg
  refine ⟨⟨?_, ?_⟩, by decide, by decide, by decide⟩
  · rw [hsingle, e3 s.language, if_pos rfl, hmin, hmax, hmod]
    show (0 : Int) + _ = _
    rw [zero_add]
  · rw [hsingle, e4 s.editor, if_pos rfl, hmin, hmax, hmod]
    show (0 : Int) + _ = _
    rw [zero_add]

/-- Claim C10, witness: the malformed-session statement applied to the
session `started_at = 1000 s`, `last_heartbeat_at = 400 s` in the window
`[0 s, 100000 s]`. -/
theorem C10_witness :
    ((get_stats_between [⟨1000, 400, "py", "vim"⟩] 0 100000 300).languages "py"
        = roundDiv60 (400 - 1000 + 30 + 86400)
      ∧ (get_stats_between [⟨1000, 400, "py", "vim"⟩] 0 100000 300).editors "vim"
        = roundDiv60 (400 - 1000 + 30 + 86400))
    ∧ (get_stats_between [⟨1000, 400, "py", "vim"⟩] 0 100000 300).languages "py"
        = 1430
    ∧ roundDiv60 85830 = 1430
    ∧ ¬ ((get_stats_between [⟨1000, 400, "py", "vim"⟩] 0 100000 300).languages "py"
        = 0) :=
  C10_malformed 0 100000 300 ⟨1000, 400, "py", "vim"⟩ (by decide) (by decide)
    (by decide) (by decide) (by decide) (by decide)

/-! ## Claim C8: current-activity classification -/

/-- Claim C8 (code bug): with no recorded session the property returns
the NoData message, but whenever the user has a most recent session the
very first step — `datetime.now(timezone.utc) - last_heartbeat_at` —
subtracts an offset-naive column value from an offset-aware instant and
raises `TypeError`, so the Coding/Idle/Away messages the claim describes
are unreachable.  Shown for every `now` and every session, and in
particular at the failing input of a session with
`last_heartbeat_at = 950 s` and `now = 1000 s` (elapsed 50 s, for which
the claim says the Coding message is returned). -/
theorem C8_typeerror (now_seconds : Int) (s : CodingSession) :
    current_activity_message (datetime_now_utc now_seconds) none
        = Except.ok ActivityMessage.noData
    ∧ current_activity_message (datetime_now_utc now_seconds) (some s)
        = Except.error
            "TypeError: cannot subtract offset-naive and offset-aware datetimes"
    ∧ current_activity_message (datetime_now_utc 1000) (some ⟨0, 950, "py", "vim"⟩)
        = Except.error
            "TypeError: cannot subtract offset-naive and offset-aware datetimes" :=
  ⟨rfl, rfl, rfl⟩

/-! ## Claim C5: per-day cache write-through -/

/-- Claim C5 (code bug): `get_stats_by_date` never writes to the per-day
cache.  First conjunct: for every input, the call either raises or leaves
the `statistics` cache exactly as it was — no entry is ever stored, so a
cache-miss computation is never found by a later call and the
`use_cache=True` lookup branch can only ever hit entries some other code
wrote.  The remaining conjuncts exhibit the second divergence: the key
the lookup uses is formatted with `"%d-%m-%YYYY"`, which strftime renders
as `12-10-2026YYY` for 2026-10-12 — not the `DD-MM-YYYY` string
`12-10-2026` the claim (and `daywise_stats`, which uses `"%d-%m-%Y"`)
expects — and a concrete miss on an empty cache returns the computed
stats with the cache still empty. -/
theorem C5_cache_never_written :
    (∀ (zones : ZoneDB) (sessions : List CodingSession) (allowed_break : Int)
        (tz : Option String) (statistics : StatsCache) (d : Date) (u : Bool),
      resultCache (get_stats_by_date zones sessions allowed_break tz statistics d u)
          = none
      ∨ resultCache (get_stats_by_date zones sessions allowed_break tz statistics d u)
          = some statistics)
    ∧ strftimeCacheKey ⟨2026, 10, 12⟩ = "12-10-2026YYY"
    ∧ ¬ (strftimeCacheKey ⟨2026, 10, 12⟩ = "12-10-2026")
    ∧ strftimeDMY ⟨2026, 10, 12⟩ = "12-10-2026"
    ∧ resultCache (get_stats_by_date [("UTC", 0)] [] 300 none [] ⟨2026, 10, 12⟩ true)
        = some [] := by
  refine ⟨fun zones sessions allowed_break tz statistics d u => ?_,
    by decide, by decide, by decide, rfl⟩
  rcases hC : (if u then statistics.lookup (strftimeCacheKey d) else none) with
    _ | cached
  · rcases hZ : zones.lookup (tzKeyOrUTC tz) with _ | offset
    · left; simp [get_stats_by_date, hC, hZ, resultCache]
    · right; simp [get_stats_by_date, hC, hZ, resultCache]
  · right; simp [get_stats_by_date, hC, resultCache]

/-! ## Claim C6: timezone degradation -/

/-- Claim C6, counterexample.  With a configured timezone identifier that
is not a known IANA zone, `get_stats_by_date` does not fall back to UTC:
`ZoneInfo` raises `ZoneInfoNotFoundError` and the call fails. -/
theorem C6_counterexample :
    get_stats_by_date [("UTC", 0)] [] 300 (some "Mars/Olympus") [] ⟨2026, 1, 1⟩ true
      = .error "ZoneInfoNotFoundError" := rfl

/-- Claim C6, amended.  `self.timezone or "UTC"` replaces only an *absent*
timezone (None, or the empty string, both falsy in Python) by `"UTC"`, so
for those the call behaves exactly as with an explicit `"UTC"`; but a
present, malformed or unknown IANA identifier is passed to `ZoneInfo`
verbatim and the call raises `ZoneInfoNotFoundError` instead of degrading
to UTC (shown here on a cache that cannot hit). -/
theorem C6_tz_fallback (zones : ZoneDB) (sessions : List CodingSession)
    (allowed_break : Int) (statistics : StatsCache) (d : Date) (u : Bool)
    (t : String) (hzone : zones.lookup t = none) (ht : ¬ (t = "")) :
    (get_stats_by_date zones sessions allowed_break none statistics d u
        = get_stats_by_date zones sessions allowed_break (some "UTC") statistics d u)
    ∧ (get_stats_by_date zones sessions allowed_break (some "") statistics d u
        = get_stats_by_date zones sessions allowed_break (some "UTC") statistics d u)
    ∧ get_stats_by_date zones sessions allowed_break (some t) [] d u
        = .error "ZoneInfoNotFoundError" := by
  refine ⟨rfl, rfl, ?_⟩
  cases u <;> simp [get_stats_by_date, tzKeyOrUTC, ht, hzone]

/-- Claim C6, witness: the fallback statement applied with the one-entry
zone table `[("UTC", 0)]` and the unknown identifier `Mars/Olympus`. -/
theorem C6_witness :
    (get_stats_by_date [("UTC", 0)] [] 300 none [] ⟨2026, 1, 1⟩ true
        = get_stats_by_date [("UTC", 0)] [] 300 (some "UTC") [] ⟨2026, 1, 1⟩ true)
    ∧ (get_stats_by_date [("UTC", 0)] [] 300 (some "") [] ⟨2026, 1, 1⟩ true
        = get_stats_by_date [("UTC", 0)] [] 300 (some "UTC") [] ⟨2026, 1, 1⟩ true)
    ∧ get_stats_by_date [("UTC", 0)] [] 300 (some "Mars/Olympus") [] ⟨2026, 1, 1⟩ true
        = .error "ZoneInfoNotFoundError" :=
  C6_tz_fallback [("UTC", 0)] [] 300 [] ⟨2026, 1, 1⟩ true "Mars/Olympus"
    (by decide) (by decide)

/-! ## Claim C7: range validation -/

lemma dateLe_refl (d : Date) : dateLe d d = true := by
  simp [dateLe]

/-- The only exception `get_stats_by_date` can raise is the timezone
lookup failure. -/
lemma get_stats_by_date_error_eq (zones : ZoneDB) (sessions : List CodingSession)
    (allowed_break : Int) (tz : Option String) (statistics : StatsCache)
    (d : Date) (u : Bool) (e : String)
    (h : get_stats_by_date zones sessions allowed_break tz statistics d u
      = .error e) :
    e = "ZoneInfoNotFoundError" := by
  rcases hC : (if u then statistics.lookup (strftimeCacheKey d) else none) with
    _ | cached
  · rcases hZ : zones.lookup (tzKeyOrUTC tz) with _ | offset
    · simp [get_stats_by_date, hC, hZ] at h
      exact h.symm
    · simp [get_stats_by_date, hC, hZ] at h
  · simp [get_stats_by_date, hC] at h

/-- The per-day loop of `daywise_stats` can only propagate the timezone
lookup failure. -/
lemma daywiseLoop_error_eq (zones : ZoneDB) (sessions : List CodingSession)
    (allowed_break : Int) (tz : Option String) :
    ∀ (fuel : Nat) (cur endDate : Date) (statistics : StatsCache) (e : String),
      daywiseLoop zones sessions allowed_break tz fuel cur endDate statistics
        = .error e → e = "ZoneInfoNotFoundError" := by
  intro fuel
  induction fuel with
  | zero =>
    intro cur endDate statistics e h
    exact absurd h (by simp [daywiseLoop])
  | succ n ih =>
    intro cur endDate statistics e h
    unfold daywiseLoop at h
    split at h
    · split at h
      · rename_i e' heq
        rw [Except.error.injEq] at h
        exact h ▸ get_stats_by_date_error_eq zones sessions allowed_break tz
          statistics cur true e' heq
      · rename_i st statistics' heq
        split at h
        · rename_i e'' heq2
          rw [Except.error.injEq] at h
          exact h ▸ ih (nextDay cur) endDate statistics' e'' heq2
        · exact absurd h (by simp)
    · exact absurd h (by simp)

/-- Claim C7: `daywise_stats` with `start > end` fails with the
`InvalidRange` condition (the `assert start <= end` `AssertionError`)
before computing any per-day stats and returns no mapping; with
`start <= end` (and also when `end` is omitted and defaults to `start`)
that condition is never raised — any failure of the per-day computation
is the distinct timezone error. -/
theorem C7_range_validation (zones : ZoneDB) (sessions : List CodingSession)
    (allowed_break : Int) (tz : Option String) (statistics : StatsCache)
    (start endDate : Date) :
    (dateLe start endDate = false →
      daywise_stats zones sessions allowed_break tz statistics start (some endDate)
        = .error "AssertionError: End date must be greater than or equal to start date")
    ∧ (dateLe start endDate = true →
      daywise_stats zones sessions allowed_break tz statistics start (some endDate)
        ≠ .error "AssertionError: End date must be greater than or equal to start date")
    ∧ daywise_stats zones sessions allowed_break tz statistics start none
      ≠ .error "AssertionError: End date must be greater than or equal to start date" := by
  refine ⟨fun h => ?_, fun h hcontra => ?_, fun hcontra => ?_⟩
  · simp [daywise_stats, h]
  · rw [daywise_stats, Option.getD_some] at hcontra
    rw [if_pos h] at hcontra
    have := daywiseLoop_error_eq zones sessions allowed_break tz _ start endDate
      statistics _ hcontra
    exact absurd this (by decide)
  · rw [daywise_stats, Option.getD_none] at hcontra
    rw [if_pos (dateLe_refl start)] at hcontra
    have := daywiseLoop_error_eq zones sessions allowed_break tz _ start start
      statistics _ hcontra
    exact absurd this (by decide)

/-- Claim C7, witness: with a UTC-only zone table, `daywise_stats` from
2026-01-02 to 2026-01-01 fails with the range assertion, and from
2026-01-01 to 2026-01-01 it does not raise that condition. -/
theorem C7_witness :
    daywise_stats [("UTC", 0)] [] 300 none [] ⟨2026, 1, 2⟩ (some ⟨2026, 1, 1⟩)
      = .error "AssertionError: End date must be greater than or equal to start date"
    ∧ daywise_stats [("UTC", 0)] [] 300 none [] ⟨2026, 1, 1⟩ (some ⟨2026, 1, 1⟩)
      ≠ .error "AssertionError: End date must be greater than or equal to start date" :=
  ⟨(C7_range_validation [("UTC", 0)] [] 300 none [] ⟨2026, 1, 2⟩ ⟨2026, 1, 1⟩).1
      (by decide),
   (C7_range_validation [("UTC", 0)] [] 300 none [] ⟨2026, 1, 1⟩ ⟨2026, 1, 1⟩).2.1
      (by decide)⟩
